import Mathlib

/-
Verification of the extraction / classification / temporal-normalization
pipeline of getbins_headless.py (ha-binday repository).

The Python source is shallowly embedded below.  Pure helper functions become
Lean functions over String / Int / List.  The ambient inputs of the pipeline
(the wall clock, the tz database) are passed explicitly:
  * now        : the current aware datetime (datetime.now(tz) in the source),
  * toInstant  : the absolute-time valuation of an aware datetime in
                 microseconds (what the tz database provides for comparisons
                 and subtraction of aware datetimes),
  * validZone  : which zone names ZoneInfo accepts.
HTML parsing by BeautifulSoup is external; the embedding starts from the
structure the source reads off the soup: the first table, its thead header
texts, and per-row th-text / td-texts.
-/

/-- Python whitespace set used by str.split, str.strip and regex \s
(ASCII part; the inputs of interest are ASCII). -/
def pyIsSpace (c : Char) : Bool :=
  c = ' ' || c = '\t' || c = '\n' || c = '\r' || c = '\x0b' || c = '\x0c'

/-- Lowercase one ASCII character (the inputs of interest are ASCII). -/
def lowerChar (c : Char) : Char :=
  if 65 ≤ c.toNat ∧ c.toNat ≤ 90 then Char.ofNat (c.toNat + 32) else c

/-- Python str.lower for the ASCII inputs used by the classifiers. -/
def pyLower (s : String) : String := ⟨s.data.map lowerChar⟩

/-- Python str.strip(): drop leading and trailing whitespace. -/
def pyStrip (s : String) : String :=
  ⟨(((s.data.dropWhile pyIsSpace).reverse).dropWhile pyIsSpace).reverse⟩

/-- Contiguous-sublist test on character lists. -/
def listInfix (pat : List Char) : List Char → Bool
  | [] => pat.isEmpty
  | c :: t => pat.isPrefixOf (c :: t) || listInfix pat t

/-- Python substring test: pat in hay. -/
def strContains (hay pat : String) : Bool := listInfix pat.data hay.data

/-- Accumulating worker for pySplitWs; acc holds the current word reversed. -/
def splitWsAux : List Char → List Char → List String
  | [], acc => if acc.isEmpty then [] else [⟨acc.reverse⟩]
  | c :: t, acc =>
    if pyIsSpace c then
      (if acc.isEmpty then [] else [⟨acc.reverse⟩]) ++ splitWsAux t []
    else splitWsAux t (c :: acc)

/-- Python str.split() with no argument: split on whitespace runs, dropping
empty pieces. -/
def pySplitWs (s : String) : List String := splitWsAux s.data []

/-- Space-join of a list of strings. -/
def joinSpace : List String → String
  | [] => ""
  | [a] => a
  | a :: b :: t => a ++ " " ++ joinSpace (b :: t)

/-- The whitespace collapsing in the source: a space-join of str.split(). -/
def collapseWs (s : String) : String := joinSpace (pySplitWs s)

/-- Fuelled worker for pySplitOn; fuel bounds the number of consumed
characters, acc holds the current piece reversed. -/
def splitOnSepGo (sep : List Char) : Nat → List Char → List Char → List (List Char)
  | _, [], acc => [acc.reverse]
  | 0, l, acc => [acc.reverse ++ l]
  | fuel + 1, c :: t, acc =>
    if sep.isPrefixOf (c :: t) then
      acc.reverse :: splitOnSepGo sep fuel ((c :: t).drop sep.length) []
    else splitOnSepGo sep fuel t (c :: acc)

/-- Python str.split(sep) for a non-empty separator: non-overlapping
occurrences, left to right, empty pieces kept. -/
def pySplitOn (s sep : String) : List String :=
  (splitOnSepGo sep.data s.data.length s.data []).map (fun l => ⟨l⟩)

/-- Python truthiness filter on an optional string: a missing or empty string
is falsy. -/
def optTruthy (o : Option String) : Option String :=
  match o with
  | some s => if s = "" then none else some s
  | none => none

/-- Weekday names used by the is_date heuristic (source line 129). -/
def weekdayNames : List String :=
  ["Monday", "Tuesday", "Wednesday", "Thursday", "Friday", "Saturday", "Sunday"]

/-- is_date from the source: a value looks like a date when it is non-empty
and contains an English weekday name as a substring. -/
def is_date (val : String) : Bool :=
  if val = "" then false
  else weekdayNames.any (fun d => strContains val d)

/-- Rule condition: black AND rubbish. -/
def ruleBlack (l : String) : Bool := strContains l "black" && strContains l "rubbish"

/-- Rule condition: blue AND (cardboard OR bag). -/
def ruleBlue (l : String) : Bool :=
  strContains l "blue" && (strContains l "cardboard" || strContains l "bag")

/-- Rule condition: food OR caddy. -/
def ruleFood (l : String) : Bool := strContains l "food" || strContains l "caddy"

/-- Rule condition: green AND recycling. -/
def ruleGreen (l : String) : Bool := strContains l "green" && strContains l "recycling"

/-- Rule condition: garden AND waste. -/
def ruleGarden (l : String) : Bool := strContains l "garden" && strContains l "waste"

/-- A Python value that is either a string or a list of strings, as returned
by get_waste_group. -/
inductive StrOrList where
  | str (s : String)
  | list (l : List String)
deriving DecidableEq, Repr

/-- get_waste_group from the source (lines 84-122): ordered substring rules,
first match wins; rule order black, blue, food, green-recycling,
garden-waste. -/
def get_waste_group (collection_type : String) : Option StrOrList :=
  if collection_type = "" then none
  else
    let l := pyLower collection_type
    if ruleBlack l then some (.str "General Rubbish (black bin)")
    else if ruleBlue l then some (.str "Cardboard (blue bag/box)")
    else if ruleFood l then some (.str "Food Waste (caddy)")
    else if ruleGreen l then
      some (.list ["Plastics & Metals (green box)", "Glass & Paper (green box)"])
    else if ruleGarden l then some (.str "Garden Waste (garden bin subscription)")
    else none

/-- get_bin_type_column_prefix from the source (lines 412-447): same five
rule conditions, but checked in the order black, blue, food, garden-waste,
green-recycling. -/
def get_bin_type_column_prefix (collection_type : String) : Option String :=
  if collection_type = "" then none
  else
    let l := pyLower collection_type
    if ruleBlack l then some "black_rubbish_140l"
    else if ruleBlue l then some "blue_cardboard_bag"
    else if ruleFood l then some "black_food_waste"
    else if ruleGarden l then some "green_garden_bin"
    else if ruleGreen l then some "green_recycling_box"
    else none

example : get_waste_group "Black Rubbish Bin" = some (.str "General Rubbish (black bin)") := by decide
example : get_bin_type_column_prefix "Blue Cardboard Bag" = some "blue_cardboard_bag" := by decide
example : get_waste_group "green recycling garden waste" =
    some (.list ["Plastics & Metals (green box)", "Glass & Paper (green box)"]) := by decide
example : get_bin_type_column_prefix "green recycling garden waste" = some "green_garden_bin" := by decide

/-- Drop everything up to and including the first comma; none when there is
no comma. -/
def afterFirstComma : List Char → Option (List Char)
  | [] => none
  | c :: rest => if c = ',' then some rest else afterFirstComma rest

/-- Python date_str.split(",", 1)[-1]: the part after the first comma, or the
whole string when there is none. -/
def pySplitComma1Last (s : String) : String :=
  match afterFirstComma s.data with
  | some rest => ⟨rest⟩
  | none => s

/-- Skip a run of at least one whitespace character (regex \s+). -/
def skipWs1 : List Char → Option (List Char)
  | [] => none
  | c :: rest => if pyIsSpace c then some (rest.dropWhile pyIsSpace) else none

/-- Numeric value of a decimal digit character. -/
def digitVal (c : Char) : Nat := c.toNat - 48

/-- Day-of-month matcher of strptime %d: two digits when they form 01-31,
else a single digit 1-9 (CPython regex 3[01]|[12]\d|0[1-9]|[1-9]). -/
def parseDay2 : List Char → Option (Nat × List Char)
  | c1 :: c2 :: rest =>
    if c1.isDigit && c2.isDigit then
      let v := 10 * digitVal c1 + digitVal c2
      if 1 ≤ v ∧ v ≤ 31 then some (v, rest)
      else if 1 ≤ digitVal c1 ∧ digitVal c1 ≤ 9 then some (digitVal c1, c2 :: rest)
      else none
    else if c1.isDigit && digitVal c1 ≥ 1 then some (digitVal c1, c2 :: rest)
    else none
  | [c1] => if c1.isDigit && digitVal c1 ≥ 1 then some (digitVal c1, []) else none
  | [] => none

/-- Full English month names with their 1-based indices, as matched by
strptime %B in the C locale. -/
def monthsIndexed : List (Nat × String) :=
  [(1, "January"), (2, "February"), (3, "March"), (4, "April"), (5, "May"),
   (6, "June"), (7, "July"), (8, "August"), (9, "September"), (10, "October"),
   (11, "November"), (12, "December")]

/-- Case-insensitive literal prefix match; returns the remainder. -/
def matchPrefixCI (pat l : List Char) : Option (List Char) :=
  if pat.length ≤ l.length && (l.take pat.length).map lowerChar = pat.map lowerChar then
    some (l.drop pat.length)
  else none

/-- Try each month name in turn (strptime matches month names
case-insensitively; no full month name is a prefix of another). -/
def matchMonth : List (Nat × String) → List Char → Option (Nat × List Char)
  | [], _ => none
  | (idx, name) :: rest, l =>
    match matchPrefixCI name.data l with
    | some l2 => some (idx, l2)
    | none => matchMonth rest l

/-- Year matcher of strptime %Y: exactly four digits. -/
def parseYear4 : List Char → Option (Nat × List Char)
  | a :: b :: c :: d :: rest =>
    if a.isDigit && b.isDigit && c.isDigit && d.isDigit then
      some (1000 * digitVal a + 100 * digitVal b + 10 * digitVal c + digitVal d, rest)
    else none
  | _ => none

/-- Gregorian leap-year rule used by datetime. -/
def isLeap (y : Nat) : Bool := y % 4 = 0 && (y % 100 ≠ 0 || y % 400 = 0)

/-- Length of a month, as validated by the datetime constructor. -/
def daysInMonth (y m : Nat) : Nat :=
  if m = 2 then (if isLeap y then 29 else 28)
  else if m = 4 ∨ m = 6 ∨ m = 9 ∨ m = 11 then 30
  else 31

/-- datetime.strptime(s, "%d %B %Y"): day, whitespace, full month name,
whitespace, four-digit year, end of input; then the datetime constructor
validates year ≥ 1 and the day against the month length.  Returns
(day, month, year); none models the ValueError raise. -/
def strptime_dBY (s : String) : Option (Nat × Nat × Nat) :=
  match parseDay2 s.data with
  | none => none
  | some (d, r1) =>
    match skipWs1 r1 with
    | none => none
    | some r2 =>
      match matchMonth monthsIndexed r2 with
      | none => none
      | some (m, r3) =>
        match skipWs1 r3 with
        | none => none
        | some r4 =>
          match parseYear4 r4 with
          | none => none
          | some (y, r5) =>
            if r5 = [] then
              if 1 ≤ y ∧ d ≤ daysInMonth y m then some (d, m, y) else none
            else none

/-- An aware Python datetime: wall-clock fields plus the attached zone name.
Comparisons between aware datetimes go through a toInstant valuation
supplied by the (external) tz database. -/
structure PyDateTime where
  year : Nat
  month : Nat
  day : Nat
  hour : Nat
  minute : Nat
  second : Nat
  microsecond : Nat
  tzName : Option String
deriving DecidableEq, Repr

/-- Python exceptions distinguished by the except clause of
parse_collection_date. -/
inductive PyExc where
  | valueError
  | attributeError
  | otherExc (name : String)
deriving DecidableEq, Repr

/-- Zone resolution of the source: ZoneInfo(tzName) with a silent fallback
to Europe/London when the name is not in the tz database (validZone). -/
def resolveZone (validZone : String → Bool) (tzName : String) : String :=
  if validZone tzName then tzName else "Europe/London"

/-- Body of the try block of parse_collection_date (source lines 144-158):
split off the part before the first comma, strip, strptime, fix the time to
07:00:00.000, attach the resolved zone.  The only raise is the ValueError
of strptime. -/
def parse_collection_date_body (validZone : String → Bool) (tzName : String)
    (date_str : String) : Except PyExc PyDateTime :=
  let date_part := pyStrip (pySplitComma1Last date_str)
  match strptime_dBY date_part with
  | none => .error .valueError
  | some (d, m, y) =>
    .ok { year := y, month := m, day := d, hour := 7, minute := 0, second := 0,
          microsecond := 0, tzName := some (resolveZone validZone tzName) }

/-- parse_collection_date from the source (lines 132-160): empty input gives
None; the try block catches ValueError and AttributeError, turning them
into None; any other exception would propagate. -/
def parse_collection_date (validZone : String → Bool) (tzName : String)
    (date_str : String) : Except PyExc (Option PyDateTime) :=
  if date_str = "" then .ok none
  else
    match parse_collection_date_body validZone tzName date_str with
    | .ok dt => .ok (some dt)
    | .error .valueError => .ok none
    | .error .attributeError => .ok none
    | .error e => .error e

/-- The Option view of parse_collection_date used by the rest of the
pipeline (its callers never observe an exception, see C9). -/
def parse_collection_dateO (validZone : String → Bool) (tzName : String)
    (date_str : String) : Option PyDateTime :=
  match parse_collection_date validZone tzName date_str with
  | .ok o => o
  | .error _ => none

example : strptime_dBY "17 November 2025" = some (17, 11, 2025) := by decide
example : strptime_dBY "7 November 2025" = some (7, 11, 2025) := by decide
example : strptime_dBY "31 February 2025" = none := by decide
example : strptime_dBY "29 February 2024" = some (29, 2, 2024) := by decide
example : strptime_dBY "17 NOVEMBER 2025" = some (17, 11, 2025) := by decide
example : strptime_dBY "17 Nov 2025" = none := by decide
example : strptime_dBY "17 November 0000" = none := by decide
example : parse_collection_dateO (fun _ => true) "Europe/London" "Monday, 17 November 2025" =
    some { year := 2025, month := 11, day := 17, hour := 7, minute := 0, second := 0,
           microsecond := 0, tzName := some "Europe/London" } := by decide
example : parse_collection_dateO (fun _ => true) "Europe/London" "garbage" = none := by decide

/-- format_time_until_next from the source (lines 163-215).  Python integer
division and modulo are floor-based, so Int.fdiv and Int.emod; the
days-in-hours subtraction happens only when days > 0. -/
def format_time_until_next (days minutes : Int) : String :=
  if minutes < 0 then "Collection time has passed"
  else
    let hours0 := minutes.fdiv 60
    let remaining_minutes := minutes.emod 60
    let hours := if days > 0 then hours0 - days * 24 else hours0
    let p1 : List String :=
      if days > 0 then [if days = 1 then "1 day" else toString days ++ " days"] else []
    let p2 : List String :=
      if hours > 0 then [if hours = 1 then "1 hour" else toString hours ++ " hours"] else []
    let p3 : List String :=
      if remaining_minutes > 0 then
        [if remaining_minutes = 1 then "1 minute" else toString remaining_minutes ++ " minutes"]
      else []
    match p1 ++ p2 ++ p3 with
    | [] => "Less than 1 minute"
    | [a] => a
    | [a, b] => a ++ " and " ++ b
    | parts => String.intercalate ", " parts.dropLast ++ " and " ++ parts.getLastD ""

/-- Result dictionary of calculate_time_differences; a key absent from the
Python dict is none. -/
structure TimeDiffs where
  days_until_next : Option Int
  minutes_until_next : Option Int
  time_until_next_text : Option String
  days_since_last : Option Int
  minutes_since_last : Option Int
deriving DecidableEq, Repr

/-- Microseconds per day. -/
def usPerDay : Int := 86400000000

/-- Microseconds per minute. -/
def usPerMinute : Int := 60000000

/-- calculate_time_differences from the source (lines 218-273).  now is the
aware datetime the source reads from the clock; toInstant is the
absolute-time valuation of aware datetimes (tz database), so the aware
comparison next_dt >= now is toInstant now ≤ toInstant next_dt and
timedelta.days / int(total_seconds/60) are floor divisions of the
microsecond difference (nonnegative in the branch where they are taken). -/
def calculate_time_differences (validZone : String → Bool) (toInstant : PyDateTime → Int)
    (tzName : String) (now : PyDateTime)
    (next_str last_str : Option String) : TimeDiffs :=
  let nextTriple : Option Int × Option Int × Option String :=
    match next_str with
    | some s =>
      if s = "" then (none, none, none)
      else
        match parse_collection_dateO validZone tzName s with
        | some next_dt =>
          if toInstant now ≤ toInstant next_dt then
            let delta := toInstant next_dt - toInstant now
            let days := delta.fdiv usPerDay
            let minutes := delta.fdiv usPerMinute
            (some days, some minutes, some (format_time_until_next days minutes))
          else (some 0, some 0, some "Collection time has passed")
        | none => (none, none, none)
    | none => (none, none, none)
  let lastPair : Option Int × Option Int :=
    match last_str with
    | some s =>
      if s = "" then (none, none)
      else
        match parse_collection_dateO validZone tzName s with
        | some last_dt =>
          if toInstant last_dt ≤ toInstant now then
            let delta := toInstant now - toInstant last_dt
            (some (delta.fdiv usPerDay), some (delta.fdiv usPerMinute))
          else (some 0, some 0)
        | none => (none, none)
    | none => (none, none)
  { days_until_next := nextTriple.1
    minutes_until_next := nextTriple.2.1
    time_until_next_text := nextTriple.2.2
    days_since_last := lastPair.1
    minutes_since_last := lastPair.2 }

example : format_time_until_next 0 0 = "Less than 1 minute" := by decide
example : format_time_until_next 1 1440 = "1 day" := by decide
example : format_time_until_next 2 3210 = "2 days, 5 hours and 30 minutes" := by decide
example : format_time_until_next 0 61 = "1 hour and 1 minute" := by decide
example : format_time_until_next (-1) (-5) = "Collection time has passed" := by decide

/-- One tr of the results table as the source reads it off the soup:
rowHeader is the th text extracted with get_text(separator=" | ",
strip=True) when a th is present; cells are the stripped td texts in
document order. -/
structure HtmlRow where
  rowHeader : Option String
  cells : List String
deriving DecidableEq, Repr

/-- The first table of the document: headers are the thead th texts when a
thead is present; rows are the tbody tr rows when a tbody is present. -/
structure HtmlTable where
  headers : Option (List String)
  rows : Option (List HtmlRow)
deriving DecidableEq, Repr

/-- Header scan of the source (lines 296-302): one if/elif chain per header,
later matches overwrite earlier ones.  Returns
(next_col_idx, last_col_idx, collection_type_idx). -/
def computeColIdxs (headers : List String) : Option Nat × Option Nat × Option Nat :=
  headers.enum.foldl
    (fun acc p =>
      if strContains p.2 "Next collection" then (some p.1, acc.2.1, acc.2.2)
      else if strContains p.2 "Last collection" then (acc.1, some p.1, acc.2.2)
      else if strContains p.2 "Collection" && p.2 ≠ "" then (acc.1, acc.2.1, some p.1)
      else acc)
    (none, none, none)

/-- The len(values) > 0 fallback branch of the collection-type resolution
(source lines 333-335): the first data cell, when non-empty and not
date-looking. -/
def firstCellType (values : List String) : Option String :=
  if 0 < values.length then
    if values.getD 0 "" ≠ "" && !is_date (values.getD 0 "") then some (values.getD 0 "")
    else none
  else none

/-- Collection-type resolution of the source (lines 325-335): an if/elif
chain, so when the row has no th and collection_type_idx is in range, the
first-cell branch is never reached. -/
def resolveCollectionType (typeI : Option Nat) (rowHeader : Option String)
    (values : List String) : Option String :=
  match rowHeader with
  | some h => some h
  | none =>
    match typeI with
    | some ti =>
      if ti < values.length then
        if values.getD ti "" ≠ "" && !is_date (values.getD ti "") then some (values.getD ti "")
        else none
      else firstCellType values
    | none => firstCellType values

/-- Whitespace collapsing applied to a truthy resolved label (source lines
337-339). -/
def resolveCt1 (typeI : Option Nat) (row : HtmlRow) : Option String :=
  match resolveCollectionType typeI row.rowHeader row.cells with
  | some s => if s = "" then some s else some (collapseWs s)
  | none => none

/-- Date resolution of the source (lines 341-366): header-mapped cells that
look like dates first, then positional fallback on the list of date-looking
values.  Returns (next_collection, last_collection). -/
def resolveRowDates (nextI lastI : Option Nat) (values : List String) :
    Option String × Option String :=
  let date_values := values.filter (fun v => v ≠ "" && is_date v)
  let n0 : Option String :=
    match nextI with
    | some i =>
      if i < values.length then
        if values.getD i "" ≠ "" && is_date (values.getD i "") then some (values.getD i "")
        else none
      else none
    | none => none
  let l0 : Option String :=
    match lastI with
    | some i =>
      if i < values.length then
        if values.getD i "" ≠ "" && is_date (values.getD i "") then some (values.getD i "")
        else none
      else none
    | none => none
  let nc := match n0 with | some v => some v | none => date_values.head?
  let lc := match l0 with | some v => some v | none => date_values.get? 1
  (nc, lc)

/-- One output record: a Python dict with conditionally present keys, so
every field is optional; the time-difference keys live in timeDiffs. -/
structure CollectionItem where
  collection_type : Option String
  waste_group : Option StrOrList
  next_collection : Option String
  last_collection : Option String
  timeDiffs : TimeDiffs
deriving DecidableEq, Repr

/-- Emptiness of the time-difference dict. -/
def TimeDiffs.isEmptyTD (t : TimeDiffs) : Bool :=
  t.days_until_next.isNone && t.minutes_until_next.isNone &&
  t.time_until_next_text.isNone && t.days_since_last.isNone && t.minutes_since_last.isNone

/-- Emptiness of the record dict (the if collection_item check of source
line 406). -/
def CollectionItem.isEmptyDict (it : CollectionItem) : Bool :=
  it.collection_type.isNone && it.waste_group.isNone && it.next_collection.isNone &&
  it.last_collection.isNone && it.timeDiffs.isEmptyTD

/-- The single-collection-type branch of the source (lines 391-407): keys
are added only for truthy values and the item is appended only when the
dict is non-empty. -/
def singleTypeItems (validZone : String → Bool) (toInstant : PyDateTime → Int)
    (tzName : String) (now : PyDateTime)
    (ct : Option String) (nc lc : Option String) : List CollectionItem :=
  let ctv := optTruthy ct
  let item : CollectionItem :=
    { collection_type := ctv
      waste_group := match ctv with | some s => get_waste_group s | none => none
      next_collection := optTruthy nc
      last_collection := optTruthy lc
      timeDiffs := calculate_time_differences validZone toInstant tzName now nc lc }
  if item.isEmptyDict then [] else [item]

/-- Per-row processing of the source (lines 311-407): resolve the label,
resolve the dates, then either split a composite label on " | " into one
item per trimmed non-empty part (lines 370-390) or emit the single-type
item. -/
def processRow (validZone : String → Bool) (toInstant : PyDateTime → Int)
    (tzName : String) (now : PyDateTime)
    (nextI lastI typeI : Option Nat) (row : HtmlRow) : List CollectionItem :=
  let rd := resolveRowDates nextI lastI row.cells
  match resolveCt1 typeI row with
  | some ct =>
    if ct ≠ "" && strContains ct " | " then
      (((pySplitOn ct " | ").map pyStrip).filter (fun t => t ≠ "")).map (fun t =>
        { collection_type := some t
          waste_group := get_waste_group t
          next_collection := optTruthy rd.1
          last_collection := optTruthy rd.2
          timeDiffs := calculate_time_differences validZone toInstant tzName now rd.1 rd.2 })
    else singleTypeItems validZone toInstant tzName now (some ct) rd.1 rd.2
  | none => singleTypeItems validZone toInstant tzName now none rd.1 rd.2

/-- parse_collection_table from the source (lines 276-409): no table or no
tbody gives []; headers default to [] without a thead; rows are processed
in document order and their items concatenated. -/
def parse_collection_table (validZone : String → Bool) (toInstant : PyDateTime → Int)
    (tzName : String) (now : PyDateTime) (doc : Option HtmlTable) : List CollectionItem :=
  match doc with
  | none => []
  | some table =>
    let headers := match table.headers with | some hs => hs | none => []
    let ci := computeColIdxs headers
    match table.rows with
    | none => []
    | some rs => (rs.map (processRow validZone toInstant tzName now ci.1 ci.2.1 ci.2.2)).flatten

/-- Projection of the collection_type fields of a record list. -/
def ctypesOf (l : List CollectionItem) : List (Option String) :=
  l.map CollectionItem.collection_type

/-- A fixed current datetime used by concrete instances below. -/
def tNow : PyDateTime :=
  { year := 2025, month := 11, day := 1, hour := 12, minute := 0, second := 0,
    microsecond := 0, tzName := some "Europe/London" }

/-- A document whose single row has only a date-looking cell and no
resolvable label. -/
def docDateOnlyRow : Option HtmlTable :=
  some { headers := none,
         rows := some [{ rowHeader := none, cells := ["Monday, 17 November 2025"] }] }

/-- A document whose single row carries a composite two-type header. -/
def docCompositeRow : Option HtmlTable :=
  some { headers := none,
         rows := some [{ rowHeader := some "Black Rubbish Bin | Blue Cardboard Bag",
                         cells := ["Monday, 17 November 2025", "Friday, 31 October 2025"] }] }

example : ctypesOf (parse_collection_table (fun _ => true) (fun _ => 0)
    "Europe/London" tNow docCompositeRow) =
    [some "Black Rubbish Bin", some "Blue Cardboard Bag"] := by decide
example : ctypesOf (parse_collection_table (fun _ => true) (fun _ => 0)
    "Europe/London" tNow docDateOnlyRow) = [none] := by decide

/-- C9: for every input string (and any timezone configuration), the date
parser returns a value of Option — it never propagates an exception to its
caller; its only internal raise is the ValueError of strptime, which the
except clause catches. -/
theorem C9_parser_never_raises (validZone : String → Bool) (tzName date_str : String) :
    parse_collection_date validZone tzName date_str =
      Except.ok (parse_collection_dateO validZone tzName date_str) := by
  unfold parse_collection_dateO parse_collection_date parse_collection_date_body
  by_cases h : date_str = ""
  · simp [h]
  · simp only [h, if_false]
    rcases strptime_dBY (pyStrip (pySplitComma1Last date_str)) with _ | ⟨d, m, y⟩ <;> simp

/-- C10: the waste-group classifier and the storage-column-key mapper
recognize exactly the same labels: one returns none exactly when the other
does. -/
theorem C10_classifiers_agree (label : String) :
    get_waste_group label = none ↔ get_bin_type_column_prefix label = none := by
  unfold get_waste_group get_bin_type_column_prefix
  by_cases h0 : label = ""
  · simp [h0]
  · simp only [h0, if_false]
    cases hb : ruleBlack (pyLower label) <;>
      cases hbl : ruleBlue (pyLower label) <;>
        cases hf : ruleFood (pyLower label) <;>
          cases hg : ruleGreen (pyLower label) <;>
            cases hgar : ruleGarden (pyLower label) <;>
              simp [hb, hbl, hf, hg, hgar]

/-- C4: two runs of the pipeline on the same parsed document, the same
timezone configuration and tz database, and the same current timestamp
produce identical record sequences (same length, order and field values);
all ambient inputs of the source (clock, tz database) appear as explicit
arguments of the embedding, so the pipeline is a pure function of them. -/
theorem C4_two_run_determinism (validZone : String → Bool) (toInstant : PyDateTime → Int)
    (tzName : String) (now : PyDateTime) (doc : Option HtmlTable)
    (r1 r2 : List CollectionItem)
    (h1 : r1 = parse_collection_table validZone toInstant tzName now doc)
    (h2 : r2 = parse_collection_table validZone toInstant tzName now doc) :
    r1 = r2 ∧ r1.length = r2.length := by
  subst h1; subst h2; exact ⟨rfl, rfl⟩

/-- Witness for C4 at a concrete document and timestamp. -/
theorem C4_two_run_determinism_witness :
    parse_collection_table (fun _ => true) (fun _ => 0) "Europe/London" tNow docCompositeRow =
      parse_collection_table (fun _ => true) (fun _ => 0) "Europe/London" tNow docCompositeRow ∧
    (parse_collection_table (fun _ => true) (fun _ => 0) "Europe/London" tNow docCompositeRow).length =
      (parse_collection_table (fun _ => true) (fun _ => 0) "Europe/London" tNow docCompositeRow).length :=
  C4_two_run_determinism (fun _ => true) (fun _ => 0) "Europe/London" tNow docCompositeRow
    _ _ rfl rfl

/-- C2 counterexample: a label containing green, recycling, garden and waste
is classified by get_waste_group through its green-recycling rule (the
two-element green-box sequence) but by get_bin_type_column_prefix through
its garden-waste rule, so the storage key is green_garden_bin, not
green_recycling_box as the claim states: the two functions check the last
two rules in opposite orders. -/
theorem C2_counterexample :
    get_waste_group "green recycling garden waste" =
      some (StrOrList.list ["Plastics & Metals (green box)", "Glass & Paper (green box)"]) ∧
    get_bin_type_column_prefix "green recycling garden waste" = some "green_garden_bin" := by
  constructor <;> decide

/-- C2 amended: for every label on which the black, blue and food rules fail
and the green-recycling condition holds, the waste group is the two-element
green-box sequence; the storage key is green_recycling_box when the label
does not also satisfy the garden-waste condition, and green_garden_bin when
it does (get_bin_type_column_prefix checks garden-waste first). -/
theorem C2_amended_green_rules (label : String)
    (hb : ruleBlack (pyLower label) = false)
    (hbl : ruleBlue (pyLower label) = false)
    (hf : ruleFood (pyLower label) = false)
    (hg : ruleGreen (pyLower label) = true) :
    get_waste_group label =
      some (StrOrList.list ["Plastics & Metals (green box)", "Glass & Paper (green box)"]) ∧
    get_bin_type_column_prefix label =
      (if ruleGarden (pyLower label) then some "green_garden_bin"
       else some "green_recycling_box") := by
  have hne : label ≠ "" := by
    intro h
    rw [h] at hg
    exact absurd hg (by decide)
  unfold get_waste_group get_bin_type_column_prefix
  by_cases hgar : ruleGarden (pyLower label) <;> simp [hne, hb, hbl, hf, hg, hgar]

/-- Witness for C2 amended at the plain green-box label. -/
theorem C2_amended_green_rules_witness :
    ruleBlack (pyLower "Green Recycling Box") = false ∧
    ruleBlue (pyLower "Green Recycling Box") = false ∧
    ruleFood (pyLower "Green Recycling Box") = false ∧
    ruleGreen (pyLower "Green Recycling Box") = true ∧
    (get_waste_group "Green Recycling Box" =
      some (StrOrList.list ["Plastics & Metals (green box)", "Glass & Paper (green box)"]) ∧
     get_bin_type_column_prefix "Green Recycling Box" =
      (if ruleGarden (pyLower "Green Recycling Box") then some "green_garden_bin"
       else some "green_recycling_box")) :=
  ⟨by decide, by decide, by decide, by decide,
   C2_amended_green_rules "Green Recycling Box" (by decide) (by decide) (by decide) (by decide)⟩

/-- Duration formatter stated from the spec (section 4.2a): hours are
derived unconditionally as floor(total_minutes/60) - days*24, the component
list keeps the strictly positive parts in order [days, hours, minutes], and
the join is "", "A", "A and B" or "A, B and C". -/
def format_duration_spec (days total_minutes : Int) : String :=
  let hours := total_minutes.fdiv 60 - days * 24
  let remaining_minutes := total_minutes.emod 60
  let comps : List String :=
    (if days > 0 then [if days = 1 then "1 day" else toString days ++ " days"] else []) ++
    (if hours > 0 then [if hours = 1 then "1 hour" else toString hours ++ " hours"] else []) ++
    (if remaining_minutes > 0 then
      [if remaining_minutes = 1 then "1 minute" else toString remaining_minutes ++ " minutes"]
     else [])
  match comps with
  | [] => "Less than 1 minute"
  | [a] => a
  | [a, b] => a ++ " and " ++ b
  | parts => String.intercalate ", " parts.dropLast ++ " and " ++ parts.getLastD ""

/-- C7: on nonnegative inputs the formatter of the source agrees with the
spec formula (the source subtracts days*24 only when days > 0, which
coincides for days = 0), and the three boundary examples hold. -/
theorem C7_duration_formatter :
    (∀ days minutes : Int, 0 ≤ days → 0 ≤ minutes →
       format_time_until_next days minutes = format_duration_spec days minutes) ∧
    format_time_until_next 0 0 = "Less than 1 minute" ∧
    format_time_until_next 1 1440 = "1 day" ∧
    format_time_until_next 2 (2 * 1440 + 5 * 60 + 30) = "2 days, 5 hours and 30 minutes" := by
  refine ⟨?_, by decide, by decide, by decide⟩
  intro days minutes hd hm
  have hnm : ¬ minutes < 0 := not_lt.mpr hm
  unfold format_time_until_next format_duration_spec
  rcases lt_or_eq_of_le hd with hpos | hzero
  · simp only [hnm, if_false, hpos, if_true]
  · simp only [hnm, if_false, ← hzero, lt_irrefl, if_false]
    norm_num

/-- Witness for C7 at days 3, minutes 200. -/
theorem C7_duration_formatter_witness :
    0 ≤ (3 : Int) ∧ 0 ≤ (200 : Int) ∧
    format_time_until_next 3 200 = format_duration_spec 3 200 :=
  ⟨by decide, by decide, C7_duration_formatter.1 3 200 (by decide) (by decide)⟩

/-- Closed form of the Option view of the date parser. -/
theorem parse_collection_dateO_eq (validZone : String → Bool) (tzName s : String) :
    parse_collection_dateO validZone tzName s =
      (if s = "" then none
       else
         match strptime_dBY (pyStrip (pySplitComma1Last s)) with
         | none => none
         | some (d, m, y) =>
           some { year := y, month := m, day := d, hour := 7, minute := 0, second := 0,
                  microsecond := 0, tzName := some (resolveZone validZone tzName) }) := by
  unfold parse_collection_dateO parse_collection_date parse_collection_date_body
  by_cases h : s = ""
  · simp [h]
  · simp only [h, if_false]
    rcases strptime_dBY (pyStrip (pySplitComma1Last s)) with _ | ⟨d, m, y⟩ <;> simp

/-- The Europe/London fallback makes the zone resolution of the literal
Europe/London independent of the tz database. -/
theorem resolveZone_london (validZone : String → Bool) :
    resolveZone validZone "Europe/London" = "Europe/London" := by
  unfold resolveZone
  split <;> rfl

/-- Comma-free prefixes are discarded whole by the first-comma split. -/
theorem afterFirstComma_concat (w r : List Char) (hw : ',' ∉ w) :
    afterFirstComma (w ++ ',' :: r) = some r := by
  induction w with
  | nil => simp [afterFirstComma]
  | cons c t ih =>
    have hc : ¬ c = ',' := fun h => hw (h ▸ List.mem_cons_self c t)
    have ht : ',' ∉ t := fun h => hw (List.mem_cons_of_mem c h)
    simp only [List.cons_append, afterFirstComma, hc, if_false]
    exact ih ht

/-- String version: everything before the first comma is dropped. -/
theorem pySplitComma1Last_concat (w r : String) (hw : ',' ∉ w.data) :
    pySplitComma1Last (w ++ "," ++ r) = r := by
  unfold pySplitComma1Last
  have hd : (w ++ "," ++ r).data = w.data ++ ',' :: r.data := by
    simp [String.data_append]
  rw [hd, afterFirstComma_concat w.data r.data hw]

/-- A string holding a comma is not empty. -/
theorem concat_comma_ne_empty (w r : String) : w ++ "," ++ r ≠ "" := by
  intro h
  have hd := congrArg String.data h
  simp [String.data_append] at hd

/-- C6: parsing the example date in Europe/London yields exactly 2025-11-17
at 07:00:00.000 in that zone; every successful parse has its time-of-day
fixed to 07:00:00.000; and the text before the first comma (in particular
the weekday name) never affects the result. -/
theorem C6_parse_fixed_seven_am (validZone : String → Bool) :
    parse_collection_dateO validZone "Europe/London" "Monday, 17 November 2025" =
      some { year := 2025, month := 11, day := 17, hour := 7, minute := 0, second := 0,
             microsecond := 0, tzName := some "Europe/London" } ∧
    (∀ tzName s dt, parse_collection_dateO validZone tzName s = some dt →
       dt.hour = 7 ∧ dt.minute = 0 ∧ dt.second = 0 ∧ dt.microsecond = 0) ∧
    (∀ tzName rest w1 w2, w1 ∈ weekdayNames → w2 ∈ weekdayNames →
       parse_collection_dateO validZone tzName (w1 ++ "," ++ rest) =
         parse_collection_dateO validZone tzName (w2 ++ "," ++ rest)) := by
  refine ⟨?_, ?_, ?_⟩
  · rw [parse_collection_dateO_eq]
    have hs : strptime_dBY (pyStrip (pySplitComma1Last "Monday, 17 November 2025")) =
        some (17, 11, 2025) := by decide
    rw [if_neg (by decide : ¬ ("Monday, 17 November 2025" : String) = "")]
    rw [hs, resolveZone_london]
  · intro tzName s dt h
    rw [parse_collection_dateO_eq] at h
    by_cases he : s = ""
    · rw [if_pos he] at h
      exact absurd h (by simp)
    · rw [if_neg he] at h
      rcases hs : strptime_dBY (pyStrip (pySplitComma1Last s)) with _ | ⟨d, m, y⟩ <;>
        rw [hs] at h
      · exact absurd h (by simp)
      · have := Option.some.inj h
        rw [← this]
        exact ⟨rfl, rfl, rfl, rfl⟩
  · intro tzName rest w1 w2 h1 h2
    have hw1 : ',' ∉ w1.data := by fin_cases h1 <;> decide
    have hw2 : ',' ∉ w2.data := by fin_cases h2 <;> decide
    rw [parse_collection_dateO_eq, parse_collection_dateO_eq,
      if_neg (concat_comma_ne_empty w1 rest), if_neg (concat_comma_ne_empty w2 rest),
      pySplitComma1Last_concat w1 rest hw1, pySplitComma1Last_concat w2 rest hw2]

/-- Witness for C6: the hour is 7 on a parsed date, and swapping the
weekday prefix Tuesday for Friday leaves the result unchanged. -/
theorem C6_parse_fixed_seven_am_witness :
    ((parse_collection_dateO (fun _ => true) "Europe/London" "Monday, 17 November 2025" =
        some { year := 2025, month := 11, day := 17, hour := 7, minute := 0, second := 0,
               microsecond := 0, tzName := some "Europe/London" }) ∧
     (PyDateTime.hour
        { year := 2025, month := 11, day := 17, hour := 7, minute := 0, second := 0,
          microsecond := 0, tzName := some "Europe/London" } = 7 ∧
      PyDateTime.minute
        { year := 2025, month := 11, day := 17, hour := 7, minute := 0, second := 0,
          microsecond := 0, tzName := some "Europe/London" } = 0 ∧
      PyDateTime.second
        { year := 2025, month := 11, day := 17, hour := 7, minute := 0, second := 0,
          microsecond := 0, tzName := some "Europe/London" } = 0 ∧
      PyDateTime.microsecond
        { year := 2025, month := 11, day := 17, hour := 7, minute := 0, second := 0,
          microsecond := 0, tzName := some "Europe/London" } = 0)) ∧
    parse_collection_dateO (fun _ => true) "Europe/London" ("Tuesday" ++ "," ++ " 17 November 2025") =
      parse_collection_dateO (fun _ => true) "Europe/London" ("Friday" ++ "," ++ " 17 November 2025") := by
  refine ⟨⟨(C6_parse_fixed_seven_am (fun _ => true)).1, ?_⟩, ?_⟩
  · exact (C6_parse_fixed_seven_am (fun _ => true)).2.1 "Europe/London" "Monday, 17 November 2025" _
      (C6_parse_fixed_seven_am (fun _ => true)).1
  · exact (C6_parse_fixed_seven_am (fun _ => true)).2.2 "Europe/London" " 17 November 2025"
      "Tuesday" "Friday" (by decide) (by decide)

/-- The empty string never parses. -/
theorem parse_collection_dateO_empty (validZone : String → Bool) (tzName : String) :
    parse_collection_dateO validZone tzName "" = none := by
  rw [parse_collection_dateO_eq]
  simp

/-- Case characterization of the next-collection fields of
calculate_time_differences: a future (or present) parsed date gives the
floor-divided deltas, a past parsed date gives the zero clamp, and a
missing or unparseable string gives absent fields. -/
theorem calc_next_cases (validZone : String → Bool) (toInstant : PyDateTime → Int)
    (tzName : String) (now : PyDateTime) (ns ls : Option String) :
    (∃ s dt, ns = some s ∧ parse_collection_dateO validZone tzName s = some dt ∧
      toInstant now ≤ toInstant dt ∧
      (calculate_time_differences validZone toInstant tzName now ns ls).days_until_next =
        some ((toInstant dt - toInstant now).fdiv usPerDay) ∧
      (calculate_time_differences validZone toInstant tzName now ns ls).minutes_until_next =
        some ((toInstant dt - toInstant now).fdiv usPerMinute) ∧
      (calculate_time_differences validZone toInstant tzName now ns ls).time_until_next_text =
        some (format_time_until_next ((toInstant dt - toInstant now).fdiv usPerDay)
          ((toInstant dt - toInstant now).fdiv usPerMinute))) ∨
    (∃ s dt, ns = some s ∧ parse_collection_dateO validZone tzName s = some dt ∧
      toInstant dt < toInstant now ∧
      (calculate_time_differences validZone toInstant tzName now ns ls).days_until_next = some 0 ∧
      (calculate_time_differences validZone toInstant tzName now ns ls).minutes_until_next = some 0 ∧
      (calculate_time_differences validZone toInstant tzName now ns ls).time_until_next_text =
        some "Collection time has passed") ∨
    ((ns = none ∨ ∃ s, ns = some s ∧ parse_collection_dateO validZone tzName s = none) ∧
      (calculate_time_differences validZone toInstant tzName now ns ls).days_until_next = none ∧
      (calculate_time_differences validZone toInstant tzName now ns ls).minutes_until_next = none ∧
      (calculate_time_differences validZone toInstant tzName now ns ls).time_until_next_text =
        none) := by
  rcases ns with _ | s
  · refine Or.inr (Or.inr ⟨Or.inl rfl, ?_, ?_, ?_⟩) <;> simp [calculate_time_differences]
  · by_cases hse : s = ""
    · subst hse
      refine Or.inr (Or.inr ⟨Or.inr ⟨"", rfl, parse_collection_dateO_empty validZone tzName⟩,
        ?_, ?_, ?_⟩) <;> simp [calculate_time_differences]
    · rcases hp : parse_collection_dateO validZone tzName s with _ | dt
      · refine Or.inr (Or.inr ⟨Or.inr ⟨s, rfl, hp⟩, ?_, ?_, ?_⟩) <;>
          simp [calculate_time_differences, hse, hp]
      · by_cases hle : toInstant now ≤ toInstant dt
        · refine Or.inl ⟨s, dt, rfl, hp, hle, ?_, ?_, ?_⟩ <;>
            simp [calculate_time_differences, hse, hp, hle]
        · refine Or.inr (Or.inl ⟨s, dt, rfl, hp, not_le.mp hle, ?_, ?_, ?_⟩) <;>
            simp [calculate_time_differences, hse, hp, hle]

/-- Case characterization of the last-collection fields of
calculate_time_differences. -/
theorem calc_last_cases (validZone : String → Bool) (toInstant : PyDateTime → Int)
    (tzName : String) (now : PyDateTime) (ns ls : Option String) :
    (∃ s dt, ls = some s ∧ parse_collection_dateO validZone tzName s = some dt ∧
      toInstant dt ≤ toInstant now ∧
      (calculate_time_differences validZone toInstant tzName now ns ls).days_since_last =
        some ((toInstant now - toInstant dt).fdiv usPerDay) ∧
      (calculate_time_differences validZone toInstant tzName now ns ls).minutes_since_last =
        some ((toInstant now - toInstant dt).fdiv usPerMinute)) ∨
    (∃ s dt, ls = some s ∧ parse_collection_dateO validZone tzName s = some dt ∧
      toInstant now < toInstant dt ∧
      (calculate_time_differences validZone toInstant tzName now ns ls).days_since_last = some 0 ∧
      (calculate_time_differences validZone toInstant tzName now ns ls).minutes_since_last =
        some 0) ∨
    ((ls = none ∨ ∃ s, ls = some s ∧ parse_collection_dateO validZone tzName s = none) ∧
      (calculate_time_differences validZone toInstant tzName now ns ls).days_since_last = none ∧
      (calculate_time_differences validZone toInstant tzName now ns ls).minutes_since_last =
        none) := by
  rcases ls with _ | s
  · refine Or.inr (Or.inr ⟨Or.inl rfl, ?_, ?_⟩) <;> simp [calculate_time_differences]
  · by_cases hse : s = ""
    · subst hse
      refine Or.inr (Or.inr ⟨Or.inr ⟨"", rfl, parse_collection_dateO_empty validZone tzName⟩,
        ?_, ?_⟩) <;> simp [calculate_time_differences]
    · rcases hp : parse_collection_dateO validZone tzName s with _ | dt
      · refine Or.inr (Or.inr ⟨Or.inr ⟨s, rfl, hp⟩, ?_, ?_⟩) <;>
          simp [calculate_time_differences, hse, hp]
      · by_cases hle : toInstant dt ≤ toInstant now
        · refine Or.inl ⟨s, dt, rfl, hp, hle, ?_, ?_⟩ <;>
            simp [calculate_time_differences, hse, hp, hle]
        · refine Or.inr (Or.inl ⟨s, dt, rfl, hp, not_le.mp hle, ?_, ?_⟩) <;>
            simp [calculate_time_differences, hse, hp, hle]

/-- C5: a next-collection string that parses to a timestamp strictly before
now yields exactly zero days, zero minutes and the fixed text; a
last-collection string that parses to a timestamp strictly after now yields
zero days and minutes; and every present day or minute field of the result
is nonnegative. -/
theorem C5_past_future_clamping (validZone : String → Bool) (toInstant : PyDateTime → Int)
    (tzName : String) (now : PyDateTime) (ns ls : Option String) (r : TimeDiffs)
    (hr : r = calculate_time_differences validZone toInstant tzName now ns ls) :
    (∀ s dt, ns = some s → parse_collection_dateO validZone tzName s = some dt →
       toInstant dt < toInstant now →
       r.days_until_next = some 0 ∧ r.minutes_until_next = some 0 ∧
       r.time_until_next_text = some "Collection time has passed") ∧
    (∀ s dt, ls = some s → parse_collection_dateO validZone tzName s = some dt →
       toInstant now < toInstant dt →
       r.days_since_last = some 0 ∧ r.minutes_since_last = some 0) ∧
    (∀ d, r.days_until_next = some d → 0 ≤ d) ∧
    (∀ m, r.minutes_until_next = some m → 0 ≤ m) ∧
    (∀ d, r.days_since_last = some d → 0 ≤ d) ∧
    (∀ m, r.minutes_since_last = some m → 0 ≤ m) := by
  subst hr
  have husD : (0 : Int) ≤ usPerDay := by decide
  have husM : (0 : Int) ≤ usPerMinute := by decide
  refine ⟨?_, ?_, ?_, ?_, ?_, ?_⟩
  · intro s dt hs hp hlt
    rcases calc_next_cases validZone toInstant tzName now ns ls with
      ⟨s', dt', hs', hp', hle', _⟩ | ⟨s', dt', hs', hp', _, h1, h2, h3⟩ | ⟨hreason, _⟩
    · obtain rfl : s' = s := Option.some.inj (hs'.symm.trans hs)
      obtain rfl : dt' = dt := Option.some.inj (hp'.symm.trans hp)
      exact absurd hle' (not_le.mpr hlt)
    · exact ⟨h1, h2, h3⟩
    · rcases hreason with hn | ⟨s'', hs'', hpn⟩
      · exact absurd (hs.symm.trans hn) (by simp)
      · obtain rfl : s'' = s := Option.some.inj (hs''.symm.trans hs)
        exact absurd (hpn.symm.trans hp) (by simp)
  · intro s dt hs hp hlt
    rcases calc_last_cases validZone toInstant tzName now ns ls with
      ⟨s', dt', hs', hp', hle', _⟩ | ⟨s', dt', hs', hp', _, h1, h2⟩ | ⟨hreason, _⟩
    · obtain rfl : s' = s := Option.some.inj (hs'.symm.trans hs)
      obtain rfl : dt' = dt := Option.some.inj (hp'.symm.trans hp)
      exact absurd hle' (not_le.mpr hlt)
    · exact ⟨h1, h2⟩
    · rcases hreason with hn | ⟨s'', hs'', hpn⟩
      · exact absurd (hs.symm.trans hn) (by simp)
      · obtain rfl : s'' = s := Option.some.inj (hs''.symm.trans hs)
        exact absurd (hpn.symm.trans hp) (by simp)
  · intro d hd
    rcases calc_next_cases validZone toInstant tzName now ns ls with
      ⟨_, dt', _, _, hle', h1, _, _⟩ | ⟨_, _, _, _, _, h1, _, _⟩ | ⟨_, h1, _, _⟩
    · obtain rfl := Option.some.inj (h1 ▸ hd)
      exact Int.fdiv_nonneg (sub_nonneg.mpr hle') husD
    · obtain rfl := Option.some.inj (h1 ▸ hd)
      exact le_refl 0
    · exact absurd (h1 ▸ hd) (by simp)
  · intro m hm
    rcases calc_next_cases validZone toInstant tzName now ns ls with
      ⟨_, dt', _, _, hle', _, h2, _⟩ | ⟨_, _, _, _, _, _, h2, _⟩ | ⟨_, _, h2, _⟩
    · obtain rfl := Option.some.inj (h2 ▸ hm)
      exact Int.fdiv_nonneg (sub_nonneg.mpr hle') husM
    · obtain rfl := Option.some.inj (h2 ▸ hm)
      exact le_refl 0
    · exact absurd (h2 ▸ hm) (by simp)
  · intro d hd
    rcases calc_last_cases validZone toInstant tzName now ns ls with
      ⟨_, dt', _, _, hle', h1, _⟩ | ⟨_, _, _, _, _, h1, _⟩ | ⟨_, h1, _⟩
    · obtain rfl := Option.some.inj (h1 ▸ hd)
      exact Int.fdiv_nonneg (sub_nonneg.mpr hle') husD
    · obtain rfl := Option.some.inj (h1 ▸ hd)
      exact le_refl 0
    · exact absurd (h1 ▸ hd) (by simp)
  · intro m hm
    rcases calc_last_cases validZone toInstant tzName now ns ls with
      ⟨_, dt', _, _, hle', _, h2⟩ | ⟨_, _, _, _, _, _, h2⟩ | ⟨_, _, h2⟩
    · obtain rfl := Option.some.inj (h2 ▸ hm)
      exact Int.fdiv_nonneg (sub_nonneg.mpr hle') husM
    · obtain rfl := Option.some.inj (h2 ▸ hm)
      exact le_refl 0
    · exact absurd (h2 ▸ hm) (by simp)

/-- A current datetime later in November 2025 than the parsed example date. -/
def tNowLate : PyDateTime :=
  { year := 2025, month := 11, day := 30, hour := 12, minute := 0, second := 0,
    microsecond := 0, tzName := some "Europe/London" }

/-- Witness for C5: with the day number as instant valuation, the example
date (day 17) lies strictly before now (day 30), so all three clamped
fields appear. -/
theorem C5_past_future_clamping_witness :
    (calculate_time_differences (fun _ => true) (fun dt => (dt.day : Int)) "Europe/London"
      tNowLate (some "Monday, 17 November 2025") none).days_until_next = some 0 ∧
    (calculate_time_differences (fun _ => true) (fun dt => (dt.day : Int)) "Europe/London"
      tNowLate (some "Monday, 17 November 2025") none).minutes_until_next = some 0 ∧
    (calculate_time_differences (fun _ => true) (fun dt => (dt.day : Int)) "Europe/London"
      tNowLate (some "Monday, 17 November 2025") none).time_until_next_text =
      some "Collection time has passed" :=
  (C5_past_future_clamping (fun _ => true) (fun dt => (dt.day : Int)) "Europe/London"
      tNowLate (some "Monday, 17 November 2025") none _ rfl).1
    "Monday, 17 November 2025"
    { year := 2025, month := 11, day := 17, hour := 7, minute := 0, second := 0,
      microsecond := 0, tzName := some "Europe/London" }
    rfl (by decide) (by decide)

/-- Collection-type resolution as the claim words it: (a) the row header if
present; (b) else the cell at the type index when non-empty and not
date-looking; (c) on failure of (b) — including an empty or date-looking
mapped cell — fall through to the first data cell under the same condition;
(d) else none. -/
def resolveCollectionTypeSpec (typeI : Option Nat) (rowHeader : Option String)
    (values : List String) : Option String :=
  match rowHeader with
  | some h => some h
  | none =>
    match typeI with
    | some ti =>
      match (if ti < values.length then
               (if values.getD ti "" ≠ "" && !is_date (values.getD ti "") then
                  some (values.getD ti "")
                else none)
             else none) with
      | some v => some v
      | none => firstCellType values
    | none => firstCellType values

/-- C3 counterexample: with the type column mapped to index 1 and that cell
date-looking, the claim's fall-through resolution returns the first data
cell, but the source's elif chain returns no label at all — case (b)
failing never reaches case (c). -/
theorem C3_counterexample :
    resolveCollectionTypeSpec (some 1) none ["Black Rubbish Bin", "Monday, 17 November 2025"] =
      some "Black Rubbish Bin" ∧
    resolveCollectionType (some 1) none ["Black Rubbish Bin", "Monday, 17 November 2025"] =
      none := by
  constructor <;> decide

/-- C3 amended: (a) a row header always wins; (b) with no row header and an
in-range type index, the mapped cell alone decides — non-empty and not
date-looking gives that cell, otherwise no label, with no fall-through; (c)
the first-cell fallback applies only when the type index is absent or out
of range. -/
theorem C3_amended_resolution_order (typeI : Option Nat) (rh : Option String)
    (values : List String) :
    (∀ h, rh = some h → resolveCollectionType typeI rh values = some h) ∧
    (∀ ti, rh = none → typeI = some ti → ti < values.length →
       resolveCollectionType typeI rh values =
         (if values.getD ti "" ≠ "" && !is_date (values.getD ti "") then
            some (values.getD ti "")
          else none)) ∧
    (rh = none → (typeI = none ∨ ∃ ti, typeI = some ti ∧ values.length ≤ ti) →
       resolveCollectionType typeI rh values = firstCellType values) := by
  refine ⟨?_, ?_, ?_⟩
  · intro h hrh
    subst hrh
    rfl
  · intro ti hrh hti hlt
    subst hrh
    subst hti
    unfold resolveCollectionType
    simp [hlt]
  · intro hrh hcase
    subst hrh
    rcases hcase with hn | ⟨ti, hti, hge⟩
    · subst hn
      rfl
    · subst hti
      unfold resolveCollectionType
      simp [not_lt.mpr hge]

/-- Witness for C3 amended: at the counterexample row the mapped cell is a
date, so the resolution yields no label. -/
theorem C3_amended_resolution_order_witness :
    resolveCollectionType (some 1) none ["Black Rubbish Bin", "Monday, 17 November 2025"] =
      (if (["Black Rubbish Bin", "Monday, 17 November 2025"] : List String).getD 1 "" ≠ "" &&
          !is_date ((["Black Rubbish Bin", "Monday, 17 November 2025"] : List String).getD 1 "")
       then some ((["Black Rubbish Bin", "Monday, 17 November 2025"] : List String).getD 1 "")
       else none) :=
  (C3_amended_resolution_order (some 1) none
      ["Black Rubbish Bin", "Monday, 17 November 2025"]).2.1 1 rfl rfl (by decide)

/-- C8: a row whose resolved, whitespace-collapsed label contains the " | "
separator emits exactly the trimmed non-empty parts, in their original
order, one record per part; every such record carries the same row-level
next/last raw date strings and the same computed time-difference fields
(the fields of the map do not depend on the part). -/
theorem C8_composite_split (validZone : String → Bool) (toInstant : PyDateTime → Int)
    (tzName : String) (now : PyDateTime) (nextI lastI typeI : Option Nat)
    (row : HtmlRow) (ct : String)
    (hct : resolveCt1 typeI row = some ct)
    (hne : ct ≠ "")
    (hsep : strContains ct " | " = true) :
    processRow validZone toInstant tzName now nextI lastI typeI row =
      (((pySplitOn ct " | ").map pyStrip).filter (fun t => t ≠ "")).map (fun t =>
        { collection_type := some t
          waste_group := get_waste_group t
          next_collection := optTruthy (resolveRowDates nextI lastI row.cells).1
          last_collection := optTruthy (resolveRowDates nextI lastI row.cells).2
          timeDiffs := calculate_time_differences validZone toInstant tzName now
            (resolveRowDates nextI lastI row.cells).1
            (resolveRowDates nextI lastI row.cells).2 }) := by
  unfold processRow
  simp only [hct, hne, hsep]
  simp
  intro h
  exact absurd h hne

/-- Witness for C8 at a concrete composite-header row. -/
theorem C8_composite_split_witness :
    processRow (fun _ => true) (fun _ => 0) "Europe/London" tNow none none none
      { rowHeader := some "Black Rubbish Bin | Blue Cardboard Bag",
        cells := ["Monday, 17 November 2025", "Friday, 31 October 2025"] } =
      (((pySplitOn "Black Rubbish Bin | Blue Cardboard Bag" " | ").map pyStrip).filter
        (fun t => t ≠ "")).map (fun t =>
        { collection_type := some t
          waste_group := get_waste_group t
          next_collection := optTruthy
            (resolveRowDates none none
              (HtmlRow.cells
                { rowHeader := some "Black Rubbish Bin | Blue Cardboard Bag",
                  cells := ["Monday, 17 November 2025", "Friday, 31 October 2025"] })).1
          last_collection := optTruthy
            (resolveRowDates none none
              (HtmlRow.cells
                { rowHeader := some "Black Rubbish Bin | Blue Cardboard Bag",
                  cells := ["Monday, 17 November 2025", "Friday, 31 October 2025"] })).2
          timeDiffs := calculate_time_differences (fun _ => true) (fun _ => 0) "Europe/London" tNow
            (resolveRowDates none none
              (HtmlRow.cells
                { rowHeader := some "Black Rubbish Bin | Blue Cardboard Bag",
                  cells := ["Monday, 17 November 2025", "Friday, 31 October 2025"] })).1
            (resolveRowDates none none
              (HtmlRow.cells
                { rowHeader := some "Black Rubbish Bin | Blue Cardboard Bag",
                  cells := ["Monday, 17 November 2025", "Friday, 31 October 2025"] })).2 }) :=
  C8_composite_split (fun _ => true) (fun _ => 0) "Europe/London" tNow none none none
    { rowHeader := some "Black Rubbish Bin | Blue Cardboard Bag",
      cells := ["Monday, 17 November 2025", "Friday, 31 October 2025"] }
    "Black Rubbish Bin | Blue Cardboard Bag" (by decide) (by decide) (by decide)

/-- C1 counterexample: a row with only a date-looking cell and no resolvable
label still contributes a record — one with no collection_type at all — so
the output is [none] under the collection_type projection, where the claim
requires either a non-empty label or no record. -/
theorem C1_counterexample :
    ctypesOf (parse_collection_table (fun _ => true) (fun _ => 0) "Europe/London" tNow
      docDateOnlyRow) = [none] := by
  decide

/-- A truthy filtered optional string is non-empty. -/
theorem optTruthy_some_ne (o : Option String) (s : String) (h : optTruthy o = some s) :
    s ≠ "" := by
  rcases o with _ | u
  · simp [optTruthy] at h
  · by_cases hu : u = ""
    · simp [optTruthy, hu] at h
    · have h2 : (if u = "" then (none : Option String) else some u) = some s := h
      rw [if_neg hu] at h2
      obtain rfl := Option.some.inj h2
      exact hu

/-- A falsy next string leaves all three next fields absent. -/
theorem calc_next_none (validZone : String → Bool) (toInstant : PyDateTime → Int)
    (tzName : String) (now : PyDateTime) (ns ls : Option String)
    (h : optTruthy ns = none) :
    (calculate_time_differences validZone toInstant tzName now ns ls).days_until_next = none ∧
    (calculate_time_differences validZone toInstant tzName now ns ls).minutes_until_next = none ∧
    (calculate_time_differences validZone toInstant tzName now ns ls).time_until_next_text =
      none := by
  rcases ns with _ | s
  · refine ⟨?_, ?_, ?_⟩ <;> simp [calculate_time_differences]
  · have hs : s = "" := by
      by_contra hs
      simp [optTruthy, hs] at h
    subst hs
    refine ⟨?_, ?_, ?_⟩ <;> simp [calculate_time_differences]

/-- A falsy last string leaves both last fields absent. -/
theorem calc_last_none (validZone : String → Bool) (toInstant : PyDateTime → Int)
    (tzName : String) (now : PyDateTime) (ns ls : Option String)
    (h : optTruthy ls = none) :
    (calculate_time_differences validZone toInstant tzName now ns ls).days_since_last = none ∧
    (calculate_time_differences validZone toInstant tzName now ns ls).minutes_since_last =
      none := by
  rcases ls with _ | s
  · refine ⟨?_, ?_⟩ <;> simp [calculate_time_differences]
  · have hs : s = "" := by
      by_contra hs
      simp [optTruthy, hs] at h
    subst hs
    refine ⟨?_, ?_⟩ <;> simp [calculate_time_differences]

/-- Shape of an item emitted by the single-type branch: a non-empty label,
or no label and no waste group but at least one date field (an all-empty
dict is dropped). -/
theorem mem_singleTypeItems_shape (validZone : String → Bool) (toInstant : PyDateTime → Int)
    (tzName : String) (now : PyDateTime) (ct nc lc : Option String) (it : CollectionItem)
    (hmem : it ∈ singleTypeItems validZone toInstant tzName now ct nc lc) :
    (∃ s, it.collection_type = some s ∧ s ≠ "") ∨
    (it.collection_type = none ∧ it.waste_group = none ∧
      (it.next_collection.isSome ∨ it.last_collection.isSome)) := by
  unfold singleTypeItems at hmem
  rcases hot : optTruthy ct with _ | s
  · simp only [hot] at hmem
    split at hmem
    · simp at hmem
    · next hcond =>
      obtain rfl := List.mem_singleton.mp hmem
      refine Or.inr ⟨rfl, rfl, ?_⟩
      by_cases hnc : optTruthy nc = none
      · by_cases hlc : optTruthy lc = none
        · exfalso
          apply hcond
          obtain ⟨e1, e2, e3⟩ := calc_next_none validZone toInstant tzName now nc lc hnc
          obtain ⟨e4, e5⟩ := calc_last_none validZone toInstant tzName now nc lc hlc
          simp [CollectionItem.isEmptyDict, TimeDiffs.isEmptyTD, hnc, hlc, e1, e2, e3, e4, e5]
        · exact Or.inr (Option.isSome_iff_ne_none.mpr hlc)
      · exact Or.inl (Option.isSome_iff_ne_none.mpr hnc)
  · simp only [hot] at hmem
    split at hmem
    · simp at hmem
    · obtain rfl := List.mem_singleton.mp hmem
      exact Or.inl ⟨s, rfl, optTruthy_some_ne ct s hot⟩

/-- Shape of any item emitted for one row: a non-empty label, or no label,
no waste group and at least one date field. -/
theorem mem_processRow_shape (validZone : String → Bool) (toInstant : PyDateTime → Int)
    (tzName : String) (now : PyDateTime) (nextI lastI typeI : Option Nat)
    (row : HtmlRow) (it : CollectionItem)
    (hmem : it ∈ processRow validZone toInstant tzName now nextI lastI typeI row) :
    (∃ s, it.collection_type = some s ∧ s ≠ "") ∨
    (it.collection_type = none ∧ it.waste_group = none ∧
      (it.next_collection.isSome ∨ it.last_collection.isSome)) := by
  unfold processRow at hmem
  rcases hct : resolveCt1 typeI row with _ | ct
  · simp only [hct] at hmem
    exact mem_singleTypeItems_shape validZone toInstant tzName now none _ _ it hmem
  · simp only [hct] at hmem
    by_cases hcond : (decide (ct ≠ "") && strContains ct " | ") = true
    · rw [if_pos hcond] at hmem
      obtain ⟨t, hts, rfl⟩ := List.mem_map.mp hmem
      have htne : t ≠ "" := by
        have := List.of_mem_filter hts
        simpa using this
      exact Or.inl ⟨t, rfl, htne⟩
    · rw [if_neg hcond] at hmem
      exact mem_singleTypeItems_shape validZone toInstant tzName now (some ct) _ _ it hmem

/-- C1 amended: every emitted record either carries a non-empty
collection_type, or carries no collection_type (and then also no
waste_group) but at least one of the raw date fields; a row with neither a
resolvable label nor any date field contributes nothing. -/
theorem C1_amended_record_shape (validZone : String → Bool) (toInstant : PyDateTime → Int)
    (tzName : String) (now : PyDateTime) (doc : Option HtmlTable) (it : CollectionItem)
    (hmem : it ∈ parse_collection_table validZone toInstant tzName now doc) :
    (∃ s, it.collection_type = some s ∧ s ≠ "") ∨
    (it.collection_type = none ∧ it.waste_group = none ∧
      (it.next_collection.isSome ∨ it.last_collection.isSome)) := by
  unfold parse_collection_table at hmem
  rcases doc with _ | table
  · simp at hmem
  · rcases hrows : table.rows with _ | rs
    · simp only [hrows] at hmem
      simp at hmem
    · simp only [hrows] at hmem
      rw [List.mem_flatten] at hmem
      obtain ⟨l, hl, hit⟩ := hmem
      obtain ⟨row, hrow, rfl⟩ := List.mem_map.mp hl
      exact mem_processRow_shape validZone toInstant tzName now _ _ _ row it hit

/-- Witness for C1 amended at the date-only row: the emitted record has no
collection_type, no waste group, and a present next_collection. -/
theorem C1_amended_record_shape_witness :
    (∃ s, CollectionItem.collection_type
        { collection_type := none, waste_group := none,
          next_collection := some "Monday, 17 November 2025", last_collection := none,
          timeDiffs := { days_until_next := some 0, minutes_until_next := some 0,
                         time_until_next_text := some "Less than 1 minute",
                         days_since_last := none, minutes_since_last := none } } = some s ∧
        s ≠ "") ∨
    (CollectionItem.collection_type
        { collection_type := none, waste_group := none,
          next_collection := some "Monday, 17 November 2025", last_collection := none,
          timeDiffs := { days_until_next := some 0, minutes_until_next := some 0,
                         time_until_next_text := some "Less than 1 minute",
                         days_since_last := none, minutes_since_last := none } } = none ∧
     CollectionItem.waste_group
        { collection_type := none, waste_group := none,
          next_collection := some "Monday, 17 November 2025", last_collection := none,
          timeDiffs := { days_until_next := some 0, minutes_until_next := some 0,
                         time_until_next_text := some "Less than 1 minute",
                         days_since_last := none, minutes_since_last := none } } = none ∧
     (Option.isSome (CollectionItem.next_collection
        { collection_type := none, waste_group := none,
          next_collection := some "Monday, 17 November 2025", last_collection := none,
          timeDiffs := { days_until_next := some 0, minutes_until_next := some 0,
                         time_until_next_text := some "Less than 1 minute",
                         days_since_last := none, minutes_since_last := none } }) ∨
      Option.isSome (CollectionItem.last_collection
        { collection_type := none, waste_group := none,
          next_collection := some "Monday, 17 November 2025", last_collection := none,
          timeDiffs := { days_until_next := some 0, minutes_until_next := some 0,
                         time_until_next_text := some "Less than 1 minute",
                         days_since_last := none, minutes_since_last := none } }))) :=
  C1_amended_record_shape (fun _ => true) (fun _ => 0) "Europe/London" tNow docDateOnlyRow
    { collection_type := none, waste_group := none,
      next_collection := some "Monday, 17 November 2025", last_collection := none,
      timeDiffs := { days_until_next := some 0, minutes_until_next := some 0,
                     time_until_next_text := some "Less than 1 minute",
                     days_since_last := none, minutes_since_last := none } }
    (by decide)
